import Mathlib

/-!
Verification of the documentation repository consisting of
`_posts/scikit/kernel-ridge-regression-and-SVR/comparision.ipynb` and
`_posts/python/statistical/histogram2d/2015-06-30-2d-histograms.html`.

The notebook code is shallowly embedded: numeric values are modelled as
rationals, the pseudo-random draws `rng.rand` as explicit argument
functions whose range hypothesis `0 ≤ r < 1` mirrors numpy's uniform
draw on the half-open unit interval, and `np.sin` as an explicit
argument function, since the repository never relies on any property of
the sine function beyond applying it elementwise.
-/

namespace Comparision

/-! ## Sample-data generation (notebook cell 3, repeated in cell 5)

Source:
  rng = np.random.RandomState(0)
  X = 5 * rng.rand(10000, 1)
  y = np.sin(X).ravel()
  y[::5] += 3 * (0.5 - rng.rand(X.shape[0]/5))
-/

/-- `X = 5 * rng.rand(10000, 1)`: each of the 10000 entries is 5 times a
uniform draw `u i` from the unit interval. -/
def genX (u : Fin 10000 → ℚ) : Fin 10000 → ℚ :=
  fun i => 5 * u i

/-- `y = np.sin(X).ravel()`: sine applied elementwise to the 10000
x-values, flattened to a vector. -/
def sinY (sin : ℚ → ℚ) (X : Fin 10000 → ℚ) : Fin 10000 → ℚ :=
  fun i => sin (X i)

/-- `y[::5] += 3 * (0.5 - rng.rand(X.shape[0]/5))`: numpy slice `[::5]`
selects the indices divisible by 5; the k-th selected entry receives the
noise term `3 * (0.5 - r k)` built from the fresh uniform draw vector
`r` of length `X.shape[0]/5 = 2000`. All other entries are unchanged. -/
def addNoise (y : Fin 10000 → ℚ) (r : Fin 2000 → ℚ) : Fin 10000 → ℚ :=
  fun i =>
    if i.val % 5 = 0 then
      y i + 3 * (1 / 2 - r ⟨i.val / 5, by have h := i.isLt; omega⟩)
    else y i

/-- C1: the synthetic dataset is a noisy sinusoid of its x-values: every
entry of `X` equals 5 times a uniform draw and lies in `[0, 5)`, and the
final `y` is elementwise sine of `X` plus a noise vector that vanishes
off the selected subset (the indices divisible by 5). -/
theorem dataset_is_noisy_sinusoid (sin : ℚ → ℚ) (u : Fin 10000 → ℚ)
    (r : Fin 2000 → ℚ) (hu : ∀ i, 0 ≤ u i ∧ u i < 1) :
    (∀ i, genX u i = 5 * u i ∧ 0 ≤ genX u i ∧ genX u i < 5) ∧
    (∃ noise : Fin 10000 → ℚ,
      (∀ i, addNoise (sinY sin (genX u)) r i = sin (genX u i) + noise i) ∧
      (∀ i, ¬ 5 ∣ i.val → noise i = 0)) := by
  constructor
  · intro i
    obtain ⟨h0, h1⟩ := hu i
    refine ⟨rfl, ?_, ?_⟩
    · simp only [genX]; linarith
    · simp only [genX]; linarith
  · refine ⟨fun i => if i.val % 5 = 0 then
        3 * (1 / 2 - r ⟨i.val / 5, by have h := i.isLt; omega⟩) else 0,
        ?_, ?_⟩
    · intro i
      by_cases h : i.val % 5 = 0
      · simp [addNoise, sinY, h]
      · simp [addNoise, sinY, h]
    · intro i hdvd
      have h : ¬ i.val % 5 = 0 := by omega
      simp [h]

/-- Concrete instantiation of `dataset_is_noisy_sinusoid` at the uniform
draw constantly 1/2 and noise draw constantly 0, with `sin` taken to be
the identity. -/
theorem dataset_is_noisy_sinusoid_witness :
    (∀ i : Fin 10000, 0 ≤ (fun _ : Fin 10000 => (1 : ℚ) / 2) i ∧
        (fun _ : Fin 10000 => (1 : ℚ) / 2) i < 1) ∧
    ((∀ i, genX (fun _ => 1 / 2) i = 5 * (fun _ : Fin 10000 => (1 : ℚ) / 2) i ∧
        0 ≤ genX (fun _ => 1 / 2) i ∧ genX (fun _ => 1 / 2) i < 5) ∧
    (∃ noise : Fin 10000 → ℚ,
      (∀ i, addNoise (sinY id (genX (fun _ => 1 / 2))) (fun _ => 0) i =
        id (genX (fun _ => 1 / 2) i) + noise i) ∧
      (∀ i, ¬ 5 ∣ i.val → noise i = 0))) :=
  ⟨fun _ => by norm_num,
   dataset_is_noisy_sinusoid id (fun _ => 1 / 2) (fun _ => 0)
     (fun _ => by norm_num)⟩

/-- C9: noise is added only at the indices divisible by 5; off that set
the final `y` equals `sin X` exactly, and on it the deviation
`y i - sin (X i) = 3 * (1/2 - r)` lies in the interval `(-3/2, 3/2]`
whenever the draw `r` lies in `[0, 1)`. -/
theorem noise_only_every_fifth (sin : ℚ → ℚ) (u : Fin 10000 → ℚ)
    (r : Fin 2000 → ℚ) (hr : ∀ j, 0 ≤ r j ∧ r j < 1) :
    ∀ i : Fin 10000,
      (¬ 5 ∣ i.val → addNoise (sinY sin (genX u)) r i = sin (genX u i)) ∧
      (5 ∣ i.val →
        -(3 / 2) < addNoise (sinY sin (genX u)) r i - sin (genX u i) ∧
        addNoise (sinY sin (genX u)) r i - sin (genX u i) ≤ 3 / 2 ∧
        |addNoise (sinY sin (genX u)) r i - sin (genX u i)| ≤ 3 / 2) := by
  intro i
  constructor
  · intro hdvd
    have h : ¬ i.val % 5 = 0 := by omega
    simp [addNoise, sinY, h]
  · intro hdvd
    have h : i.val % 5 = 0 := by omega
    have hterm : addNoise (sinY sin (genX u)) r i - sin (genX u i) =
        3 * (1 / 2 - r ⟨i.val / 5, by have hl := i.isLt; omega⟩) := by
      simp [addNoise, sinY, h]
    obtain ⟨hr0, hr1⟩ := hr ⟨i.val / 5, by have hl := i.isLt; omega⟩
    rw [hterm]
    refine ⟨by linarith, by linarith, ?_⟩
    rw [abs_le]
    constructor <;> linarith

/-- Concrete instantiation of `noise_only_every_fifth` at the noise draw
constantly 0, uniform draw constantly 0 and `sin` the identity. -/
theorem noise_only_every_fifth_witness :
    (∀ j : Fin 2000, 0 ≤ (fun _ : Fin 2000 => (0 : ℚ)) j ∧
        (fun _ : Fin 2000 => (0 : ℚ)) j < 1) ∧
    (∀ i : Fin 10000,
      (¬ 5 ∣ i.val → addNoise (sinY id (genX (fun _ => 0))) (fun _ => 0) i =
        id (genX (fun _ => 0) i)) ∧
      (5 ∣ i.val →
        -(3 / 2) < addNoise (sinY id (genX (fun _ => 0))) (fun _ => 0) i -
          id (genX (fun _ => 0) i) ∧
        addNoise (sinY id (genX (fun _ => 0))) (fun _ => 0) i -
          id (genX (fun _ => 0) i) ≤ 3 / 2 ∧
        |addNoise (sinY id (genX (fun _ => 0))) (fun _ => 0) i -
          id (genX (fun _ => 0) i)| ≤ 3 / 2)) :=
  ⟨fun _ => by norm_num,
   noise_only_every_fifth id (fun _ => 0) (fun _ => 0) (fun _ => by norm_num)⟩

/-! ## to_plotly (notebook cell 5)

Source:
  def to_plotly(n):
      l = []
      for i in range(len(n)):
          k=float(n[i])
          l.append( k)
      return l

The loop over `range(len(n))` is embedded as a fold over
`List.finRange n.length`; `float` is the Python float conversion,
passed as an explicit function from the element type to the numeric
model. -/
def to_plotly {α : Type} (float : α → ℚ) (n : List α) : List ℚ :=
  (List.finRange n.length).foldl (fun l i => l ++ [float (n.get i)]) []

/-- Appending-fold over any index list produces the mapped list. -/
theorem foldl_append_singleton {α β : Type} (f : α → β) :
    ∀ (xs : List α) (acc : List β),
      xs.foldl (fun l i => l ++ [f i]) acc = acc ++ xs.map f := by
  intro xs
  induction xs with
  | nil => intro acc; simp
  | cons x xs ih =>
    intro acc
    simp only [List.foldl_cons, List.map_cons]
    rw [ih]
    simp

/-- C8: `to_plotly` returns a fresh list of exactly `len(n)` elements
whose i-th element is `float(n[i])`; as a pure function of `n` it leaves
its argument untouched (the result equals `n.map float`). -/
theorem to_plotly_spec {α : Type} (float : α → ℚ) (n : List α) :
    to_plotly float n = n.map float ∧
    (to_plotly float n).length = n.length ∧
    ∀ i : ℕ, (to_plotly float n)[i]? = Option.map float n[i]? := by
  have hmain : to_plotly float n = n.map float := by
    unfold to_plotly
    rw [foldl_append_singleton]
    simp only [List.nil_append]
    have h1 : (List.finRange n.length).map (fun i => float (n.get i)) =
        ((List.finRange n.length).map n.get).map float := by
      rw [List.map_map]; rfl
    rw [h1, List.finRange_map_get]
  refine ⟨hmain, ?_, ?_⟩
  · rw [hmain]; simp
  · intro i
    rw [hmain]
    simp

/-! ## Subplot figure assembly (notebook cells 5 and 6)

Source:
  fig = tools.make_subplots(rows=2, cols=2,specs=[[(cell), (cell)],
                                   [(cell), None],], ...)
  ... fig.append_trace(i , 1, 1)  for trace1..trace4
  ... fig.append_trace(plot2[i] , 1, 2)  for the 4 traces of plot2
  fig.append_trace(trace7 , 2, 1)
  fig.append_trace(trace8 , 2, 1)

A figure is modelled by its grid shape, its specs grid (a present cell
is `some ()`, the `None` spec is `none`), and the ordered list of
appended traces, each recorded with its trace id and target (row, col).
-/
structure Figure where
  rows : ℕ
  cols : ℕ
  specs : List (List (Option Unit))
  traces : List (ℕ × ℕ × ℕ)

/-- `tools.make_subplots(rows=..., cols=..., specs=...)` starts with no
traces. -/
def make_subplots (rows cols : ℕ) (specs : List (List (Option Unit))) :
    Figure :=
  ⟨rows, cols, specs, []⟩

/-- `fig.append_trace(t, r, c)` appends one trace record at the end. -/
def append_trace (fig : Figure) (t r c : ℕ) : Figure :=
  { fig with traces := fig.traces ++ [(t, r, c)] }

/-- The figure as created: 2-by-2 grid, the spec of position (2,2)
being `None`. -/
def fig0 : Figure :=
  make_subplots 2 2 [[some (), some ()], [some (), none]]

/-- After the loop `for i in [trace1,trace2,trace3,trace4]:
fig.append_trace(i , 1, 1)`. -/
def figAfter11 : Figure :=
  [1, 2, 3, 4].foldl (fun f t => append_trace f t 1 1) fig0

/-- The four traces collected in `plot2`: trace5 and trace6 for each of
the two estimators of the timing loop (trace ids 5-8). -/
def plot2Ids : List ℕ := [5, 6, 7, 8]

/-- After the loop `for i in range(len(plot2)):
fig.append_trace(plot2[i] , 1, 2)`. -/
def figAfter12 : Figure :=
  plot2Ids.foldl (fun f t => append_trace f t 1 2) figAfter11

/-- After `fig.append_trace(trace7 , 2, 1)` and
`fig.append_trace(trace8 , 2, 1)` (trace ids 9 and 10): the final
figure of the plotting cell. -/
def figFinal : Figure :=
  append_trace (append_trace figAfter12 9 2 1) 10 2 1

/-- C10: the assembled figure has a 2-by-2 grid whose (2,2) spec is
empty, and exactly 10 traces: 4 at subplot (1,1), 4 at (1,2), 2 at
(2,1); and `append_trace` only ever appends, never removing or
reordering earlier traces. -/
theorem figure_assembly :
    figFinal.rows = 2 ∧ figFinal.cols = 2 ∧
    (figFinal.specs.getD 1 []).getD 1 (some ()) = none ∧
    figFinal.traces.length = 10 ∧
    figFinal.traces.countP (fun p => p.2.1 == 1 && p.2.2 == 1) = 4 ∧
    figFinal.traces.countP (fun p => p.2.1 == 1 && p.2.2 == 2) = 4 ∧
    figFinal.traces.countP (fun p => p.2.1 == 2 && p.2.2 == 1) = 2 ∧
    ∀ (f : Figure) (t r c : ℕ),
      (append_trace f t r c).traces = f.traces ++ [(t, r, c)] :=
  ⟨rfl, rfl, rfl, by decide, by decide, by decide, by decide,
   fun _ _ _ _ => rfl⟩

/-! ## Statement-level embedding of the notebook code cells

Each code cell of `comparision.ipynb` is embedded as a list of
statements. Expression payloads are carried as plain strings (with the
Python quoting and brace characters elided); the statement structure —
assignments, in-place augmented index assignments, mutating method
calls, plain calls, prints, module loads, shell escapes, function
definitions, loops, conditionals, try/except — is what the theorems
inspect. The grammar deliberately contains the handler constructs
(while, if, try/except) so that their absence from the program is a
statement about the source, not about the grammar. -/
inductive Stmt : Type where
  | assign (target expr : String)
  | augIndexAssign (target expr : String)
  | mutCall (target method args : String)
  | exprCall (e : String)
  | printCall (e : String)
  | importMod (m : String)
  | shellCmd (c : String)
  | defFun (name : String) (body : List Stmt)
  | forLoop (v iter : String) (body : List Stmt)
  | whileLoop (cond : String) (body : List Stmt)
  | ifStmt (cond : String) (thenBody elseBody : List Stmt)
  | tryExcept (body handler : List Stmt)
  | ret (e : String)

mutual

/-- True iff the statement contains, at any depth, a construct by which
the code could handle, retry, or report a failure: a try/except
handler, an unbounded (while) loop, or a conditional branch. -/
def stmtHasFailureLogic : Stmt → Bool
  | .tryExcept _ _ => true
  | .whileLoop _ _ => true
  | .ifStmt _ _ _ => true
  | .defFun _ body => stmtsHaveFailureLogic body
  | .forLoop _ _ body => stmtsHaveFailureLogic body
  | _ => false

/-- `stmtHasFailureLogic` over a statement list. -/
def stmtsHaveFailureLogic : List Stmt → Bool
  | [] => false
  | s :: rest => stmtHasFailureLogic s || stmtsHaveFailureLogic rest

end

/-- Cell 1: version display. -/
def cell1 : List Stmt := [
  .importMod "sklearn",
  .exprCall "sklearn.__version__"]

/-- Cell 2: the import cell; only external libraries are loaded. -/
def cell2 : List Stmt := [
  .importMod "plotly.plotly as py",
  .importMod "plotly.graph_objs as go",
  .importMod "plotly tools",
  .importMod "__future__ division",
  .importMod "time",
  .importMod "numpy as np",
  .importMod "sklearn.svm SVR",
  .importMod "sklearn.model_selection GridSearchCV",
  .importMod "sklearn.model_selection learning_curve",
  .importMod "sklearn.kernel_ridge KernelRidge"]

/-- Cell 3: sample-data generation. -/
def cell3 : List Stmt := [
  .assign "rng" "np.random.RandomState(0)",
  .assign "X" "5 * rng.rand(10000, 1)",
  .assign "y" "np.sin(X).ravel()",
  .augIndexAssign "y" "3 * (0.5 - rng.rand(X.shape[0]/5))",
  .assign "X_plot" "np.linspace(0, 5, 100000)[:, None]"]

/-- Cell 4: grid-search fits, predictions and timing prints. -/
def cell4 : List Stmt := [
  .assign "train_size" "100",
  .assign "svr" "GridSearchCV(SVR(kernel=rbf, gamma=0.1), cv=5, param_grid over C and gamma)",
  .assign "kr" "GridSearchCV(KernelRidge(kernel=rbf, gamma=0.1), cv=5, param_grid over alpha and gamma)",
  .assign "t0" "time.time()",
  .mutCall "svr" "fit" "X[:train_size], y[:train_size]",
  .assign "svr_fit" "time.time() - t0",
  .printCall "SVR complexity and bandwidth selected and model fitted in %.3f s",
  .assign "t0" "time.time()",
  .mutCall "kr" "fit" "X[:train_size], y[:train_size]",
  .assign "kr_fit" "time.time() - t0",
  .printCall "KRR complexity and bandwidth selected and model fitted in %.3f s",
  .assign "sv_ratio" "svr.best_estimator_.support_.shape[0] / train_size",
  .printCall "Support vector ratio: %.3f",
  .assign "t0" "time.time()",
  .assign "y_svr" "svr.predict(X_plot)",
  .assign "svr_predict" "time.time() - t0",
  .printCall "SVR prediction for %d inputs in %.3f s",
  .assign "t0" "time.time()",
  .assign "y_kr" "kr.predict(X_plot)",
  .assign "kr_predict" "time.time() - t0",
  .printCall "KRR prediction for %d inputs in %.3f s"]

/-- Cell 5: the plotting cell, including the second sample-data
generation, the per-size timing loop and the learning-curve fits. -/
def cell5 : List Stmt := [
  .defFun "to_plotly" [
    .assign "l" "[]",
    .forLoop "i" "range(len(n))" [
      .assign "k" "float(n[i])",
      .mutCall "l" "append" "k"],
    .ret "l"],
  .assign "fig" "tools.make_subplots(rows=2, cols=2, specs with None at (2,2), subplot_titles)",
  .assign "sv_ind" "svr.best_estimator_.support_",
  .assign "trace1" "go.Scatter(x=to_plotly(X[sv_ind]), y=to_plotly(y[sv_ind]), name=SVR support vectors, mode=markers, marker)",
  .assign "trace2" "go.Scatter(x=to_plotly(X[:100]), y=to_plotly(y[:100]), name=data, mode=markers, marker)",
  .assign "trace3" "go.Scatter(x=to_plotly(X_plot), y=to_plotly(y_svr), mode=lines, name=SVR fit/predict times)",
  .assign "trace4" "go.Scatter(x=to_plotly(X_plot), y=to_plotly(y_kr), mode=lines, name=KRR fit/predict times)",
  .mutCall "fig" "layout.xaxis1.update" "title=data",
  .mutCall "fig" "layout.yaxis1.update" "title=target",
  .forLoop "i" "[trace1, trace2, trace3, trace4]" [
    .mutCall "fig" "append_trace" "i, 1, 1"],
  .assign "X" "5 * rng.rand(10000, 1)",
  .assign "y" "np.sin(X).ravel()",
  .augIndexAssign "y" "3 * (0.5 - rng.rand(X.shape[0]/5))",
  .assign "sizes" "np.logspace(1, 4, 7)",
  .assign "plot2" "[]",
  .forLoop "name, estimator" "dict of KRR KernelRidge(kernel=rbf, alpha=0.1, gamma=10) and SVR SVR(kernel=rbf, C=1e1, gamma=10), .items()" [
    .assign "train_time" "[]",
    .assign "test_time" "[]",
    .forLoop "train_test_size" "sizes" [
      .assign "t0" "time.time()",
      .mutCall "estimator" "fit" "X[:train_test_size], y[:train_test_size]",
      .mutCall "train_time" "append" "time.time() - t0",
      .assign "t0" "time.time()",
      .exprCall "estimator.predict(X_plot[:1000])",
      .mutCall "test_time" "append" "time.time() - t0"],
    .assign "trace5" "go.Scatter(x=sizes, y=train_time, mode=lines+markers, marker color by name, name train)",
    .assign "trace6" "go.Scatter(x=sizes, y=test_time, mode=lines+markers, marker color by name, dashed, name test)",
    .mutCall "plot2" "append" "trace5",
    .mutCall "plot2" "append" "trace6"],
  .forLoop "i" "range(len(plot2))" [
    .mutCall "fig" "append_trace" "plot2[i], 1, 2"],
  .mutCall "fig" "layout.xaxis2.update" "title=Train size, type=log",
  .mutCall "fig" "layout.yaxis2.update" "title=Time (seconds), type=log",
  .assign "svr" "SVR(kernel=rbf, C=1e1, gamma=0.1)",
  .assign "kr" "KernelRidge(kernel=rbf, alpha=0.1, gamma=0.1)",
  .assign "train_sizes, train_scores_svr, test_scores_svr" "learning_curve(svr, X[:100], y[:100], train_sizes=np.linspace(0.1, 1, 10), scoring=neg_mean_squared_error, cv=10)",
  .assign "train_sizes_abs, train_scores_kr, test_scores_kr" "learning_curve(kr, X[:100], y[:100], train_sizes=np.linspace(0.1, 1, 10), scoring=neg_mean_squared_error, cv=10)",
  .assign "trace7" "go.Scatter(x=train_sizes, y=-test_scores_svr.mean(1), mode=lines+markers, name=SVR)",
  .assign "trace8" "go.Scatter(x=train_sizes, y=-test_scores_kr.mean(1), mode=lines+markers, name=KRR)",
  .mutCall "fig" "append_trace" "trace7, 2, 1",
  .mutCall "fig" "append_trace" "trace8, 2, 1",
  .mutCall "fig" "layout.xaxis3.update" "title=Train size",
  .mutCall "fig" "layout.yaxis3.update" "title=Mean Squared Error",
  .mutCall "fig" "layout.update" "height = 900"]

/-- Cell 6: the plot request to the hosted service. -/
def cell6 : List Stmt := [
  .exprCall "py.iplot(fig, filename=comparision)"]

/-- The final code cell: CSS displays, the pip shell escape whose
recorded output is the permission error, the publisher load, and the
publisher.publish call. -/
def publishCell : List Stmt := [
  .importMod "IPython.display display, HTML",
  .exprCall "display(HTML(stylesheet link fonts.googleapis.com))",
  .exprCall "display(HTML(stylesheet link ipython-notebook-custom.css))",
  .shellCmd "pip install git+https://github.com/plotly/publisher.git --upgrade",
  .importMod "publisher",
  .exprCall "publisher.publish(comparision.ipynb, scikit-learn/plot-kernel-ridge-regression/, title, name, thumbnail, language, page_type, display_as, order, ipynb)"]

/-- All code cells of the notebook, in order. -/
def notebookCells : List (List Stmt) := [
  cell1, cell2, cell3, cell4, cell5, cell6, publishCell]

/-- Straight-line effect trace of one statement. A Jupyter shell escape
does not raise on failure, so a failing shell command simply records
its error and execution continues; compound statements are recorded
opaquely (the publish cell, the only cell whose trace is inspected, is
straight-line). -/
def execStmt (pipFails : Bool) : Stmt → List String
  | .assign t e => [t ++ " = " ++ e]
  | .augIndexAssign t e => [t ++ " += " ++ e]
  | .mutCall t m a => [t ++ "." ++ m ++ "(" ++ a ++ ")"]
  | .exprCall e => [e]
  | .printCall e => ["print " ++ e]
  | .importMod m => ["loaded " ++ m]
  | .shellCmd c => if pipFails then [c ++ " -> error"] else [c ++ " -> ok"]
  | .ret e => ["return " ++ e]
  | _ => ["compound"]

/-- Sequential trace of a cell. -/
def runCell (pipFails : Bool) (cell : List Stmt) : List String :=
  cell.flatMap (execStmt pipFails)

/-- C2: no cell of the notebook contains an exception handler, an
unbounded retry loop, or a conditional (hence no reporting branch); and
whether or not the pip install step fails, the publish cell still
loads publisher and calls publisher.publish afterwards, the pip command
being trace entry 3 and the publisher.publish call the final entry. -/
theorem no_failure_handling :
    (∀ c ∈ notebookCells, stmtsHaveFailureLogic c = false) ∧
    (∀ pipFails : Bool,
      (runCell pipFails publishCell).length = 6 ∧
      (runCell pipFails publishCell)[3]? = some
        ("pip install git+https://github.com/plotly/publisher.git --upgrade"
          ++ (if pipFails then " -> error" else " -> ok")) ∧
      (runCell pipFails publishCell).drop 4 = [
        "loaded publisher",
        "publisher.publish(comparision.ipynb, scikit-learn/plot-kernel-ridge-regression/, title, name, thumbnail, language, page_type, display_as, order, ipynb)"]) := by
  constructor
  · decide
  · decide

mutual

/-- Names bound by direct assignment in the enclosing scope: plain
assignment targets, loop variables, and function definition names. A
def body is its own local scope and is not collected. -/
def stmtTopAssigns : Stmt → List String
  | .assign t _ => [t]
  | .defFun n _ => [n]
  | .forLoop v _ body => v :: stmtsTopAssigns body
  | .whileLoop _ body => stmtsTopAssigns body
  | .ifStmt _ tb eb => stmtsTopAssigns tb ++ stmtsTopAssigns eb
  | .tryExcept b h => stmtsTopAssigns b ++ stmtsTopAssigns h
  | _ => []

/-- `stmtTopAssigns` over a statement list. -/
def stmtsTopAssigns : List Stmt → List String
  | [] => []
  | s :: rest => stmtTopAssigns s ++ stmtsTopAssigns rest

end

mutual

/-- Names whose value is mutated in place: targets of augmented index
assignment and receivers of mutating method calls. A def body is local
scope and is not collected. -/
def stmtMutations : Stmt → List String
  | .augIndexAssign t _ => [t]
  | .mutCall t _ _ => [t]
  | .defFun _ _ => []
  | .forLoop _ _ body => stmtsMutations body
  | .whileLoop _ body => stmtsMutations body
  | .ifStmt _ tb eb => stmtsMutations tb ++ stmtsMutations eb
  | .tryExcept b h => stmtsMutations b ++ stmtsMutations h
  | _ => []

/-- `stmtMutations` over a statement list. -/
def stmtsMutations : List Stmt → List String
  | [] => []
  | s :: rest => stmtMutations s ++ stmtsMutations rest

end

/-- All notebook-scope assignment targets, in order. -/
def notebookAssigns : List String := notebookCells.flatMap stmtsTopAssigns

/-- All notebook-scope in-place mutation targets, in order. -/
def notebookMutations : List String := notebookCells.flatMap stmtsMutations

/-- C3 counterexample: the claim that no value is mutated in place or
rebound after creation is false: `y` is mutated in place by
`y[::5] +=` (cell 3), refuting the first conjunct. -/
theorem no_mutable_state_counterexample :
    ¬ ((∀ name : String, name ∉ notebookMutations) ∧
       (∀ name : String, notebookAssigns.count name ≤ 1)) :=
  fun h => (h.1 "y") (by decide)

/-- C3 amended: the comparison notebook does use mutable state: `y` is
mutated in place by the two noise additions, `fig` by the layout
updates and `append_trace` calls, the estimators by their `fit` calls;
and `X`, `y`, `svr`, `kr`, `t0` are each bound more than once. -/
theorem notebook_mutable_state :
    notebookMutations.count "y" = 2 ∧
    notebookMutations.count "fig" = 11 ∧
    "estimator" ∈ notebookMutations ∧
    "svr" ∈ notebookMutations ∧ "kr" ∈ notebookMutations ∧
    notebookAssigns.count "X" = 2 ∧ notebookAssigns.count "y" = 2 ∧
    notebookAssigns.count "svr" = 2 ∧ notebookAssigns.count "kr" = 2 ∧
    notebookAssigns.count "t0" = 6 := by
  decide

/-! ## Operation kinds of the notebook (for the four-phase ordering)

Each operation of the notebook, in source order, classified by kind:
dataset generation, fit/predict use of the learning library, plotting
library use, the publish request, or an operation of none of these four
kinds (version display, timing prints, CSS display, the pip shell
escape). Loop iterations of the timing loop are listed per estimator;
the dictionary iteration order of the two estimators only permutes two
blocks of identical kind pattern. -/
inductive OpKind : Type where
  | gen
  | fitPredict
  | plot
  | publish
  | other
deriving DecidableEq

/-- Phase rank of the four-step sequence of the claim; the `other` kind
ranks strictly above all four since the claim admits no such step. -/
def rank : OpKind → ℕ
  | .gen => 0
  | .fitPredict => 1
  | .plot => 2
  | .publish => 3
  | .other => 4

/-- The notebook's operations in source order with their kinds. -/
def notebookOps : List (String × OpKind) := [
  ("sklearn version display", .other),
  ("generate dataset 1 (X, y, noise, X_plot)", .gen),
  ("svr grid-search fit", .fitPredict),
  ("print svr fit time", .other),
  ("kr grid-search fit", .fitPredict),
  ("print kr fit time", .other),
  ("print support vector ratio", .other),
  ("svr predict on X_plot", .fitPredict),
  ("print svr predict time", .other),
  ("kr predict on X_plot", .fitPredict),
  ("print kr predict time", .other),
  ("tools.make_subplots", .plot),
  ("build trace1-trace4", .plot),
  ("update xaxis1 and yaxis1", .plot),
  ("append trace1-trace4 to subplot 1,1", .plot),
  ("generate dataset 2 (X, y, noise, sizes)", .gen),
  ("first estimator: fit and predict over the 7 sizes", .fitPredict),
  ("first estimator: build trace5 and trace6", .plot),
  ("second estimator: fit and predict over the 7 sizes", .fitPredict),
  ("second estimator: build trace5 and trace6", .plot),
  ("append the plot2 traces to subplot 1,2", .plot),
  ("update xaxis2 and yaxis2", .plot),
  ("learning_curve for svr", .fitPredict),
  ("learning_curve for kr", .fitPredict),
  ("build trace7 and trace8", .plot),
  ("append trace7 and trace8 to subplot 2,1", .plot),
  ("update xaxis3, yaxis3 and layout height", .plot),
  ("py.iplot request", .plot),
  ("display the two css links", .other),
  ("pip install publisher", .other),
  ("publisher.publish request", .publish)]

/-- The kinds of the notebook operations, in order. -/
def notebookKinds : List OpKind := notebookOps.map Prod.snd

/-- True iff each adjacent pair of kinds is non-decreasing in phase
rank, i.e. no step of an earlier kind occurs after a step of a later
kind. -/
def phaseOrdered : List OpKind → Bool
  | a :: b :: rest => Nat.ble (rank a) (rank b) && phaseOrdered (b :: rest)
  | _ => true

/-- C5 counterexample: the four-step sequence claim fails on the code:
the operation kinds are not phase-ordered (the plotting cell appends
the first subplot's traces and only then generates the second dataset),
and operations outside the four kinds occur (prints, displays, the pip
install). -/
theorem four_phase_sequence_counterexample :
    ¬ (phaseOrdered notebookKinds = true ∧
       ∀ k ∈ notebookKinds, k ≠ OpKind.other) := by
  intro h
  exact absurd h.1 (by decide)

/-- C5 amended: the notebook's operations are dataset generations,
fit/predict calls, plotting calls and a final publish request, together
with auxiliary operations (version display, timing prints, CSS display,
pip install); the publish request is the unique last operation, but the
four kinds are not globally ordered: the operation at index 14 is a
plotting step while the later operation at index 15 is a dataset
generation. -/
theorem operations_interleaved :
    notebookKinds.getLast? = some OpKind.publish ∧
    notebookKinds.count OpKind.publish = 1 ∧
    14 < 15 ∧
    notebookKinds[14]? = some OpKind.plot ∧
    notebookKinds[15]? = some OpKind.gen := by
  refine ⟨by decide, by decide, by omega, by decide, by decide⟩

/-! ## Data arguments of the Scatter traces (notebook cell 5)

For each `go.Scatter` construction, the kind of value passed as its x
and y data: the result of `to_plotly` (a Python list of floats), a
plain Python list of floats built by `append`, or a numpy array passed
directly. -/
inductive DataArg : Type where
  | plotlyList
  | pyFloatList
  | numpyArray
deriving DecidableEq

/-- The eight trace constructions of the plotting cell with the kinds
of their x and y data arguments (trace5 and trace6 are constructed once
per estimator with the same argument kinds). -/
def traceDataArgs : List (String × DataArg × DataArg) := [
  ("trace1", .plotlyList, .plotlyList),
  ("trace2", .plotlyList, .plotlyList),
  ("trace3", .plotlyList, .plotlyList),
  ("trace4", .plotlyList, .plotlyList),
  ("trace5", .numpyArray, .pyFloatList),
  ("trace6", .numpyArray, .pyFloatList),
  ("trace7", .numpyArray, .numpyArray),
  ("trace8", .numpyArray, .numpyArray)]

/-- C6 counterexample: not every trace receives to_plotly-converted
data: trace5 passes the numpy array `sizes` directly as its x data. -/
theorem traces_all_to_plotly_counterexample :
    ¬ (∀ t ∈ traceDataArgs,
        t.2.1 = DataArg.plotlyList ∧ t.2.2 = DataArg.plotlyList) := by
  decide

/-- C6 amended: the first four traces pass x and y through `to_plotly`
(lists of Python floats, JSON-serializable by construction, as proved
for `to_plotly`); traces 5 and 6 pass the numpy array `sizes` as x and
a plain Python float list as y, and traces 7 and 8 pass numpy arrays
for both, so their serialization relies on the plotting library's own
handling of numpy arrays rather than on this notebook's conversion. -/
theorem traces_data_argument_kinds :
    (∀ t ∈ traceDataArgs.take 4,
      t.2.1 = DataArg.plotlyList ∧ t.2.2 = DataArg.plotlyList) ∧
    (∀ t ∈ traceDataArgs.drop 4,
      t.2.1 = DataArg.numpyArray ∧
      (t.2.2 = DataArg.pyFloatList ∨ t.2.2 = DataArg.numpyArray)) := by
  decide

/-! ## Front matter of the HTML artifact

Source, lines 1-16 of `2015-06-30-2d-histograms.html`: the block
between the two `---` delimiters, one `key: value` line each. -/

/-- The front-matter lines of the HTML artifact as key-value pairs, in
file order. -/
def frontMatter : List (String × String) := [
  ("permalink", "python/2D-Histogram/"),
  ("description", "How to make 2D Histograms in Python with Plotly."),
  ("name", "Python 2D Histograms | plotly"),
  ("has_thumbnail", "true"),
  ("thumbnail", "thumbnail/histogram2d.jpg"),
  ("layout", "user-guide"),
  ("name", "2D Histograms"),
  ("language", "python"),
  ("title", "Python 2D Histograms | plotly"),
  ("display_as", "statistical"),
  ("has_thumbnail", "true"),
  ("ipynb", "~notebook_demo/24"),
  ("order", "6"),
  ("page_type", "u-guide")]

/-- The front-matter keys named by the specification. -/
def allowedKeys : List String := [
  "permalink", "description", "name", "layout", "language", "title",
  "display_as", "has_thumbnail", "thumbnail", "ipynb", "order",
  "page_type"]

/-- C4 counterexample: the front-matter block is not a well-formed
key-to-value mapping: the key `name` appears twice (as does
`has_thumbnail`), refuting the at-most-once conjunct at the key
`name`. -/
theorem front_matter_mapping_counterexample :
    ¬ ((∀ kv ∈ frontMatter, kv.1 ∈ allowedKeys) ∧
       (∀ k : String, (frontMatter.map Prod.fst).count k ≤ 1)) :=
  fun h => absurd (h.2 "name") (by decide)

/-- C4 amended: every front-matter line of the HTML artifact is one of
the twelve specified keys with a value, but the keys `name` and
`has_thumbnail` each appear exactly twice while every other allowed key
appears at most once; the duplicates prevent the block from being a
well-formed key-to-value mapping. -/
theorem front_matter_keys :
    (∀ kv ∈ frontMatter, kv.1 ∈ allowedKeys) ∧
    (frontMatter.map Prod.fst).count "name" = 2 ∧
    (frontMatter.map Prod.fst).count "has_thumbnail" = 2 ∧
    (∀ k ∈ allowedKeys, k ≠ "name" → k ≠ "has_thumbnail" →
      (frontMatter.map Prod.fst).count k ≤ 1) := by
  refine ⟨by decide, by decide, by decide, by decide⟩

/-! ## Runtime independence of the two artifacts

The notebook's imports (collected from its statement embedding) and
the HTML artifact's imports (its three rendered code cells, lines
44, 98, 139-142, 193-196 and 250-253) name only external libraries;
the repository itself contains no importable Python module, so neither
artifact can load code or data from the other, and each artifact's
output is a function of its own content and environment alone. -/

/-- The modules loaded by the notebook, collected from the embedding. -/
def notebookImports : List String :=
  notebookCells.flatMap (fun c => c.flatMap (fun s =>
    match s with
    | .importMod m => [m]
    | _ => []))

/-- The modules loaded by the code cells of the HTML artifact. -/
def htmlImports : List String := [
  "plotly",
  "IPython.core.display display, HTML",
  "plotly.plotly as py",
  "plotly.graph_objs as go",
  "numpy as np"]

/-- The two files of the repository, each listed as its path together
with its filename extension. -/
def repoFiles : List (String × String) := [
  ("_posts/scikit/kernel-ridge-regression-and-SVR/comparision.ipynb",
   "ipynb"),
  ("_posts/python/statistical/histogram2d/2015-06-30-2d-histograms.html",
   "html")]

/-- A repository file can be loaded by a Python import only if it is a
Python module file, i.e. has the py extension. -/
def isPyModule (file : String × String) : Bool := file.2 == "py"

/-- The output of rendering or running one artifact, as a function of
its own content, the external environment, and the content of the other
file. Since neither artifact loads the other (no repository file is an
importable module, and no import names a repository file), the render
function consults only the artifact's own content and environment. -/
def artifactOutput {α β γ : Type} (render : α → β) (own : α)
    (_otherFileContent : γ) : β :=
  render own

/-- C7: the two artifacts do not interact: no repository file is an
importable Python module, every module either artifact loads is
external (none names a repository file), and consequently each
artifact's output is unchanged across any two runs that differ only in
the other file's content. -/
theorem artifacts_independent :
    (∀ f ∈ repoFiles, isPyModule f = false) ∧
    (∀ m ∈ notebookImports, m ∉ repoFiles.map Prod.fst) ∧
    (∀ m ∈ htmlImports, m ∉ repoFiles.map Prod.fst) ∧
    (∀ (α β γ : Type) (render : α → β) (own : α) (o1 o2 : γ),
      artifactOutput render own o1 = artifactOutput render own o2) := by
  refine ⟨by decide, by decide, by decide, fun _ _ _ _ _ _ _ => rfl⟩

/-- Concrete instantiation of `no_failure_handling`: the plotting cell
contains no failure-handling construct, and with the pip install
failing the publish-cell trace still has its six entries. -/
theorem no_failure_handling_witness :
    stmtsHaveFailureLogic cell5 = false ∧
    (runCell true publishCell).length = 6 :=
  ⟨no_failure_handling.1 cell5 (by simp [notebookCells]),
   (no_failure_handling.2 true).1⟩

/-- Concrete instantiation of `front_matter_keys` at the first
front-matter line and the key permalink. -/
theorem front_matter_keys_witness :
    ("permalink", "python/2D-Histogram/") ∈ frontMatter ∧
    ("permalink" : String) ∈ allowedKeys ∧
    "permalink" ≠ "name" ∧ "permalink" ≠ "has_thumbnail" ∧
    (frontMatter.map Prod.fst).count "permalink" ≤ 1 :=
  ⟨by decide, by decide, by decide, by decide,
   front_matter_keys.2.2.2 "permalink" (by decide) (by decide) (by decide)⟩

/-- Concrete instantiation of `traces_data_argument_kinds` at trace1
and trace5. -/
theorem traces_data_argument_kinds_witness :
    ("trace1", DataArg.plotlyList, DataArg.plotlyList) ∈
      traceDataArgs.take 4 ∧
    ("trace1", DataArg.plotlyList, DataArg.plotlyList).2.1 =
      DataArg.plotlyList ∧
    ("trace5", DataArg.numpyArray, DataArg.pyFloatList) ∈
      traceDataArgs.drop 4 ∧
    ("trace5", DataArg.numpyArray, DataArg.pyFloatList).2.1 =
      DataArg.numpyArray :=
  ⟨by decide,
   (traces_data_argument_kinds.1
     ("trace1", DataArg.plotlyList, DataArg.plotlyList) (by decide)).1,
   by decide,
   (traces_data_argument_kinds.2
     ("trace5", DataArg.numpyArray, DataArg.pyFloatList) (by decide)).1⟩

/-- Concrete instantiation of `artifacts_independent` at the notebook
file and the publisher module name. -/
theorem artifacts_independent_witness :
    ("_posts/scikit/kernel-ridge-regression-and-SVR/comparision.ipynb",
      "ipynb") ∈ repoFiles ∧
    isPyModule
      ("_posts/scikit/kernel-ridge-regression-and-SVR/comparision.ipynb",
        "ipynb") = false ∧
    ("publisher" : String) ∈ notebookImports ∧
    ("publisher" : String) ∉ repoFiles.map Prod.fst :=
  ⟨by decide,
   artifacts_independent.1
     ("_posts/scikit/kernel-ridge-regression-and-SVR/comparision.ipynb",
       "ipynb") (by decide),
   by decide,
   artifacts_independent.2.1 "publisher" (by decide)⟩

/-- Concrete instantiation of `to_plotly_spec` on the two-element list
of rationals 1/2 and 3 with the identity conversion. -/
theorem to_plotly_spec_witness :
    to_plotly id [(1 : ℚ) / 2, 3] = [(1 : ℚ) / 2, 3] ∧
    (to_plotly id [(1 : ℚ) / 2, 3]).length = 2 ∧
    (to_plotly id [(1 : ℚ) / 2, 3])[0]? = some (1 / 2) :=
  ⟨by have h := (to_plotly_spec id [(1 : ℚ) / 2, 3]).1; simpa using h,
   by have h := (to_plotly_spec id [(1 : ℚ) / 2, 3]).2.1; simpa using h,
   by have h := (to_plotly_spec id [(1 : ℚ) / 2, 3]).2.2 0; simpa using h⟩

end Comparision
